import Mathlib

/-!
Shallow embedding of the virtual-dependencies add-on core
(`src/__init__.py`): path resolution, environment provisioning, and the
package operations engine (install / uninstall / verify) over an explicit
state that records the filesystem, the manifest file, the module search
path, and the sequence of invoked external processes.
-/

/-- Static context of a run: the add-on source directory (`os.path.dirname
of the script`), the platform flag (`os.name == nt`), the interpreter
currently executing the core (`sys.executable`), which module names are
importable in the current runtime (`importlib.import_module` succeeds), and
the exit codes the external processes would produce (the source never
inspects them; the field exists so independence from them can be stated). -/
structure Config where
  addonPath : String
  isWindows : Bool
  sysExecutable : String
  importable : List String
  outcome : List Int
  deriving DecidableEq

/-- Mutable world state: existing filesystem paths, the contents (lines) of
`requirements.txt` when it exists (`none` = file absent), `sys.path`, the
ordered list of `subprocess.run` argv invocations, the ordered list of
directories passed to `venv.create`, and the ordered list of module names
whose import was attempted by verification. -/
structure St where
  fs : List String
  manifest : Option (List String)
  sysPath : List String
  procs : List (List String)
  venvCreated : List String
  triedImports : List String
  deriving DecidableEq

/-- Model of `os.path.join` for the two-component joins used by the source. -/
def joinPath (a b : String) : String := a ++ "/" ++ b

/-- The default environment identifier used by every caller in the source. -/
def defaultEnvName : String := "Verv_Req_env"

/-- `addon_script_path`: the directory containing the add-on script. -/
def addon_script_path (cfg : Config) : String := cfg.addonPath

/-- `venv_path(env_name)`: the environment root, `<addon-dir>/<env_name>`. -/
def venv_path (cfg : Config) (env_name : String) : String :=
  joinPath (addon_script_path cfg) env_name

/-- The platform-specific interpreter path under the root of environment
`env_name`: `Scripts/python.exe` on Windows, `bin/python` otherwise. -/
def env_python_for (cfg : Config) (env_name : String) : String :=
  if cfg.isWindows then
    joinPath (joinPath (venv_path cfg env_name) "Scripts") "python.exe"
  else
    joinPath (joinPath (venv_path cfg env_name) "bin") "python"

/-- `python_exec`: the environment interpreter when it exists on disk,
otherwise `sys.executable`. -/
def python_exec (cfg : Config) (st : St) : String :=
  let env_python := env_python_for cfg defaultEnvName
  if env_python ∈ st.fs then env_python else cfg.sysExecutable

/-- `subprocess.run(cmd)`: records the invocation; the exit code is never
inspected by the source, so the state carries only the argv trace. -/
def runProc (cmd : List String) (st : St) : St :=
  { st with procs := st.procs ++ [cmd] }

/-- `ensure_pip_installed`: invokes `<python> -m ensurepip`. -/
def ensure_pip_installed (cfg : Config) (st : St) : St :=
  let python_exe := python_exec cfg st
  runProc [python_exe, "-m", "ensurepip"] st

/-- `create_venv(env_name)`: if the root does not exist, `venv.create` it
(which materialises the root and its interpreter) and then ensure pip;
otherwise do nothing. -/
def create_venv (cfg : Config) (env_name : String) (st : St) : St :=
  let env_dir := venv_path cfg env_name
  if env_dir ∈ st.fs then st
  else
    let st1 : St :=
      { st with
        fs := st.fs ++ [env_dir, env_python_for cfg env_name],
        venvCreated := st.venvCreated ++ [env_dir] }
    ensure_pip_installed cfg st1

/-- Path of the manifest file, `<addon-dir>/requirements.txt`. -/
def requirements_txt_path (cfg : Config) : String :=
  joinPath (addon_script_path cfg) "requirements.txt"

/-- Model of Python's `str.strip()`: drop leading and trailing whitespace. -/
def pyStrip (s : String) : String :=
  String.mk (((s.data.dropWhile Char.isWhitespace).reverse.dropWhile
    Char.isWhitespace).reverse)

/-- The per-line processing both loops apply to the manifest lines: strip
each line, keep the non-blank results (Python's `if package_name:`),
preserving order and duplicates. -/
def processEntries (lines : List String) : List String :=
  (lines.map pyStrip).filter (fun s => !s.data.isEmpty)

/-- `check_dependencies_installed`: missing manifest file returns `false`;
otherwise each stripped non-blank line must be importable, failures being
collected into `missing_packages`; returns `true` iff that list is empty.
The only state change is the record of attempted imports. -/
def check_dependencies_installed (cfg : Config) (st : St) : St × Bool :=
  match st.manifest with
  | none => (st, false)
  | some packages =>
    let names := processEntries packages
    let missing_packages := names.filter (fun n => !cfg.importable.contains n)
    ({ st with triedImports := st.triedImports ++ names },
      missing_packages.isEmpty)

/-- `add_virtualenv_to_syspath`: append the environment root to `sys.path`
when the root directory exists; no membership check is made first. -/
def add_virtualenv_to_syspath (cfg : Config) (st : St) : St :=
  let env_dir := venv_path cfg defaultEnvName
  if env_dir ∈ st.fs then { st with sysPath := st.sysPath ++ [env_dir] }
  else st

/-- The pip install argv used by `install_packages`: with
`--force-reinstall` when `override` is set, without it otherwise. -/
def pip_install_cmd (python_exe : String) (override : Bool)
    (req target : String) : List String :=
  if override then
    [python_exe, "-m", "pip", "install", "--upgrade", "--force-reinstall",
      "-r", req, "--target", target]
  else
    [python_exe, "-m", "pip", "install", "--upgrade", "-r", req,
      "--target", target]

/-- `install_packages(override)`: ensure the environment, resolve the
interpreter, ensure pip, upgrade pip, run the manifest install (forced when
`override`), append the environment root to `sys.path`, then call
`check_dependencies_installed` — whose boolean result is discarded; the
Python function falls off its end and returns `None`, modelled as `none`. -/
def install_packages (cfg : Config) (override : Bool) (st : St) :
    St × Option Bool :=
  let st1 := create_venv cfg defaultEnvName st
  let python_exe := python_exec cfg st1
  let req := requirements_txt_path cfg
  let target := venv_path cfg defaultEnvName
  let st2 := ensure_pip_installed cfg st1
  let st3 := runProc [python_exe, "-m", "pip", "install", "--upgrade", "pip"] st2
  let st4 := runProc (pip_install_cmd python_exe override req target) st3
  let st5 := add_virtualenv_to_syspath cfg st4
  let st6 := (check_dependencies_installed cfg st5).fst
  (st6, none)

/-- `uninstall_packages`: missing manifest file is a no-op; otherwise
ensure pip, then invoke `pip uninstall -y <name>` for every stripped
non-blank manifest line, in order, unconditionally. -/
def uninstall_packages (cfg : Config) (st : St) : St :=
  let python_exe := python_exec cfg st
  match st.manifest with
  | none => st
  | some packages =>
    let st1 := ensure_pip_installed cfg st
    (processEntries packages).foldl
      (fun s package_name =>
        runProc [python_exe, "-m", "pip", "uninstall", "-y", package_name] s)
      st1

/-- The stripped non-blank names a manifest state yields: none for a
missing file, the processed entries otherwise. -/
def manifestNames : Option (List String) → List String
  | none => []
  | some lines => processEntries lines

/-- A concrete configuration used for witnesses and counterexamples. -/
def cfg0 : Config :=
  { addonPath := "/addon", isWindows := false,
    sysExecutable := "/usr/bin/python3",
    importable := ["requests", "numpy"], outcome := [] }

/-- A concrete fresh state: nothing on disk except a one-line manifest. -/
def st0 : St :=
  { fs := [], manifest := some ["requests"], sysPath := [], procs := [],
    venvCreated := [], triedImports := [] }

/-- A concrete state whose manifest file is absent. -/
def stNone : St := { st0 with manifest := none }

/-- A concrete state whose manifest file exists but has only blank lines. -/
def stEmpty : St := { st0 with manifest := some ["", "   "] }

/-- A concrete state holding the round-trip manifest of the spec. -/
def stRT : St :=
  { st0 with manifest := some ["requests", "", "  numpy  ", "requests"] }

/-- A concrete state where the environment root and its interpreter
already exist on disk. -/
def stProv : St :=
  { st0 with
    fs := [venv_path cfg0 defaultEnvName, env_python_for cfg0 defaultEnvName] }

theorem runProc_fs (c : List String) (st : St) : (runProc c st).fs = st.fs := rfl

theorem runProc_manifest (c : List String) (st : St) :
    (runProc c st).manifest = st.manifest := rfl

theorem runProc_sysPath (c : List String) (st : St) :
    (runProc c st).sysPath = st.sysPath := rfl

theorem runProc_venvCreated (c : List String) (st : St) :
    (runProc c st).venvCreated = st.venvCreated := rfl

theorem runProc_triedImports (c : List String) (st : St) :
    (runProc c st).triedImports = st.triedImports := rfl

theorem runProc_procs (c : List String) (st : St) :
    (runProc c st).procs = st.procs ++ [c] := rfl

theorem create_venv_of_mem (cfg : Config) (n : String) (st : St)
    (h : venv_path cfg n ∈ st.fs) : create_venv cfg n st = st := by
  simp [create_venv, h]

theorem root_mem_create_venv_fs (cfg : Config) (n : String) (st : St) :
    venv_path cfg n ∈ (create_venv cfg n st).fs := by
  by_cases h : venv_path cfg n ∈ st.fs <;>
    simp [create_venv, ensure_pip_installed, runProc, h]

theorem mem_create_venv_fs (cfg : Config) (n : String) (st : St)
    (x : String) (h : x ∈ st.fs) : x ∈ (create_venv cfg n st).fs := by
  by_cases hc : venv_path cfg n ∈ st.fs <;>
    simp [create_venv, ensure_pip_installed, runProc, hc, h]

theorem create_venv_manifest (cfg : Config) (n : String) (st : St) :
    (create_venv cfg n st).manifest = st.manifest := by
  by_cases h : venv_path cfg n ∈ st.fs <;>
    simp [create_venv, ensure_pip_installed, runProc, h]

theorem create_venv_sysPath (cfg : Config) (n : String) (st : St) :
    (create_venv cfg n st).sysPath = st.sysPath := by
  by_cases h : venv_path cfg n ∈ st.fs <;>
    simp [create_venv, ensure_pip_installed, runProc, h]

theorem create_venv_triedImports (cfg : Config) (n : String) (st : St) :
    (create_venv cfg n st).triedImports = st.triedImports := by
  by_cases h : venv_path cfg n ∈ st.fs <;>
    simp [create_venv, ensure_pip_installed, runProc, h]

theorem add_syspath_fs (cfg : Config) (st : St) :
    (add_virtualenv_to_syspath cfg st).fs = st.fs := by
  by_cases h : venv_path cfg defaultEnvName ∈ st.fs <;>
    simp [add_virtualenv_to_syspath, h]

theorem add_syspath_manifest (cfg : Config) (st : St) :
    (add_virtualenv_to_syspath cfg st).manifest = st.manifest := by
  by_cases h : venv_path cfg defaultEnvName ∈ st.fs <;>
    simp [add_virtualenv_to_syspath, h]

theorem add_syspath_procs (cfg : Config) (st : St) :
    (add_virtualenv_to_syspath cfg st).procs = st.procs := by
  by_cases h : venv_path cfg defaultEnvName ∈ st.fs <;>
    simp [add_virtualenv_to_syspath, h]

theorem add_syspath_venvCreated (cfg : Config) (st : St) :
    (add_virtualenv_to_syspath cfg st).venvCreated = st.venvCreated := by
  by_cases h : venv_path cfg defaultEnvName ∈ st.fs <;>
    simp [add_virtualenv_to_syspath, h]

theorem add_syspath_triedImports (cfg : Config) (st : St) :
    (add_virtualenv_to_syspath cfg st).triedImports = st.triedImports := by
  by_cases h : venv_path cfg defaultEnvName ∈ st.fs <;>
    simp [add_virtualenv_to_syspath, h]

theorem add_syspath_of_mem (cfg : Config) (st : St)
    (h : venv_path cfg defaultEnvName ∈ st.fs) :
    (add_virtualenv_to_syspath cfg st).sysPath =
      st.sysPath ++ [venv_path cfg defaultEnvName] := by
  simp [add_virtualenv_to_syspath, h]

theorem check_fst_fs (cfg : Config) (st : St) :
    (check_dependencies_installed cfg st).fst.fs = st.fs := by
  cases h : st.manifest <;> simp [check_dependencies_installed, h]

theorem check_fst_manifest (cfg : Config) (st : St) :
    (check_dependencies_installed cfg st).fst.manifest = st.manifest := by
  cases h : st.manifest <;> simp [check_dependencies_installed, h]

theorem check_fst_sysPath (cfg : Config) (st : St) :
    (check_dependencies_installed cfg st).fst.sysPath = st.sysPath := by
  cases h : st.manifest <;> simp [check_dependencies_installed, h]

theorem check_fst_procs (cfg : Config) (st : St) :
    (check_dependencies_installed cfg st).fst.procs = st.procs := by
  cases h : st.manifest <;> simp [check_dependencies_installed, h]

theorem check_fst_venvCreated (cfg : Config) (st : St) :
    (check_dependencies_installed cfg st).fst.venvCreated = st.venvCreated := by
  cases h : st.manifest <;> simp [check_dependencies_installed, h]

theorem check_fst_triedImports (cfg : Config) (st : St) :
    (check_dependencies_installed cfg st).fst.triedImports =
      st.triedImports ++ manifestNames st.manifest := by
  cases h : st.manifest <;> simp [check_dependencies_installed, manifestNames, h]

theorem check_snd_some (cfg : Config) (st : St) (lines : List String)
    (h : st.manifest = some lines) :
    (check_dependencies_installed cfg st).snd =
      ((processEntries lines).filter
        (fun n => !cfg.importable.contains n)).isEmpty := by
  simp [check_dependencies_installed, h]

theorem foldl_runProc (f : String → List String) (l : List String) (st : St) :
    l.foldl (fun s n => runProc (f n) s) st =
      { st with procs := st.procs ++ l.map f } := by
  induction l generalizing st with
  | nil => simp
  | cons a t ih =>
    rw [List.foldl_cons, ih]
    simp [runProc]

theorem uninstall_eq (cfg : Config) (st : St) (lines : List String)
    (h : st.manifest = some lines) :
    uninstall_packages cfg st =
      { st with
        procs := st.procs ++
          ([[python_exec cfg st, "-m", "ensurepip"]] ++
            (processEntries lines).map
              (fun n => [python_exec cfg st, "-m", "pip", "uninstall", "-y", n])) } := by
  unfold uninstall_packages
  rw [h]
  simp only [foldl_runProc (fun n => [python_exec cfg st, "-m", "pip", "uninstall", "-y", n])]
  simp [ensure_pip_installed, runProc, h]

theorem install_snd (cfg : Config) (ov : Bool) (st : St) :
    (install_packages cfg ov st).snd = none := rfl

theorem install_fst_procs (cfg : Config) (ov : Bool) (st : St) :
    (install_packages cfg ov st).fst.procs =
      (create_venv cfg defaultEnvName st).procs ++
        [[python_exec cfg (create_venv cfg defaultEnvName st), "-m", "ensurepip"],
         [python_exec cfg (create_venv cfg defaultEnvName st), "-m", "pip",
            "install", "--upgrade", "pip"],
         pip_install_cmd (python_exec cfg (create_venv cfg defaultEnvName st)) ov
           (requirements_txt_path cfg) (venv_path cfg defaultEnvName)] := by
  unfold install_packages
  simp [check_fst_procs, add_syspath_procs, ensure_pip_installed, runProc]

theorem install_fst_fs (cfg : Config) (ov : Bool) (st : St) :
    (install_packages cfg ov st).fst.fs =
      (create_venv cfg defaultEnvName st).fs := by
  unfold install_packages
  simp [check_fst_fs, add_syspath_fs, ensure_pip_installed, runProc]

theorem install_fst_manifest (cfg : Config) (ov : Bool) (st : St) :
    (install_packages cfg ov st).fst.manifest = st.manifest := by
  unfold install_packages
  simp [check_fst_manifest, add_syspath_manifest, ensure_pip_installed, runProc,
    create_venv_manifest]

theorem install_fst_sysPath (cfg : Config) (ov : Bool) (st : St) :
    (install_packages cfg ov st).fst.sysPath =
      (create_venv cfg defaultEnvName st).sysPath ++
        [venv_path cfg defaultEnvName] := by
  have hmem : venv_path cfg defaultEnvName ∈ (create_venv cfg defaultEnvName st).fs :=
    root_mem_create_venv_fs cfg defaultEnvName st
  unfold install_packages
  simp [check_fst_sysPath, add_virtualenv_to_syspath, ensure_pip_installed,
    runProc, hmem]

theorem install_fst_triedImports (cfg : Config) (ov : Bool) (st : St) :
    (install_packages cfg ov st).fst.triedImports =
      st.triedImports ++ manifestNames st.manifest := by
  unfold install_packages
  simp [check_fst_triedImports, add_syspath_triedImports, add_syspath_manifest,
    ensure_pip_installed, runProc, create_venv_triedImports, create_venv_manifest]

theorem uninstall_sysPath (cfg : Config) (st : St) :
    (uninstall_packages cfg st).sysPath = st.sysPath := by
  cases h : st.manifest with
  | none => simp [uninstall_packages, h]
  | some lines => rw [uninstall_eq cfg st lines h]

/-- C1 fails as stated: at a concrete fresh state, `install_packages`
returns `None` (modelled `none`), which is not the boolean result of the
verification pass it runs last — the call on line 95 of the source discards
the return value of `check_dependencies_installed`. -/
theorem C1_counterexample :
    ¬ ((install_packages cfg0 false st0).snd =
        some ((check_dependencies_installed cfg0
          (install_packages cfg0 false st0).fst).snd)) := by
  decide

/-- C1 (amended): after the package-installation step a verification pass
runs automatically (its import attempts over the manifest entries are
recorded), but its boolean result is discarded and `install_packages`
returns `None` to its caller. -/
theorem C1_install_runs_verification_but_returns_none
    (cfg : Config) (ov : Bool) (st : St) :
    (install_packages cfg ov st).snd = none ∧
    (install_packages cfg ov st).fst.triedImports =
      st.triedImports ++ manifestNames st.manifest :=
  ⟨install_snd cfg ov st, install_fst_triedImports cfg ov st⟩

/-- C2: verification returns `true` iff every stripped non-blank manifest
entry is importable; a missing manifest file yields `false`, and a manifest
with zero non-blank entries yields `true`. -/
theorem C2_verify_iff_all_importable (cfg : Config) (st : St) :
    (st.manifest = none → (check_dependencies_installed cfg st).snd = false) ∧
    (∀ lines, st.manifest = some lines →
      ((check_dependencies_installed cfg st).snd = true ↔
        ∀ n ∈ processEntries lines, n ∈ cfg.importable)) ∧
    (∀ lines, st.manifest = some lines → processEntries lines = [] →
      (check_dependencies_installed cfg st).snd = true) := by
  refine ⟨fun h => by simp [check_dependencies_installed, h],
    fun lines h => ?_, fun lines h he => ?_⟩
  · rw [check_snd_some cfg st lines h]
    simp [List.isEmpty_iff, List.filter_eq_nil_iff, List.contains, List.elem_iff]
  · rw [check_snd_some cfg st lines h, he]
    rfl

/-- C2 witness: the three cases of `C2_verify_iff_all_importable` at
concrete states — manifest absent, one-line manifest, blank-only manifest. -/
theorem C2_witness :
    (check_dependencies_installed cfg0 stNone).snd = false ∧
    ((check_dependencies_installed cfg0 st0).snd = true ↔
      ∀ n ∈ processEntries ["requests"], n ∈ cfg0.importable) ∧
    (check_dependencies_installed cfg0 stEmpty).snd = true :=
  ⟨(C2_verify_iff_all_importable cfg0 stNone).1 rfl,
   (C2_verify_iff_all_importable cfg0 st0).2.1 ["requests"] rfl,
   (C2_verify_iff_all_importable cfg0 stEmpty).2.2 ["", "   "] rfl (by decide)⟩

/-- C3: the manifest lines `["requests", "", "  numpy  ", "requests"]`
process to exactly `["requests", "numpy", "requests"]` — stripped,
blank-dropped, order and duplicates preserved — and verification and
uninstallation consume exactly that sequence, in order. -/
theorem C3_manifest_processing :
    processEntries ["requests", "", "  numpy  ", "requests"] =
      ["requests", "numpy", "requests"] ∧
    (check_dependencies_installed cfg0 stRT).fst.triedImports =
      ["requests", "numpy", "requests"] ∧
    (uninstall_packages cfg0 stRT).procs =
      [[python_exec cfg0 stRT, "-m", "ensurepip"],
       [python_exec cfg0 stRT, "-m", "pip", "uninstall", "-y", "requests"],
       [python_exec cfg0 stRT, "-m", "pip", "uninstall", "-y", "numpy"],
       [python_exec cfg0 stRT, "-m", "pip", "uninstall", "-y", "requests"]] := by
  decide

/-- C4: the environment root is `<source-dir>/<name>` (default
`Verv_Req_env`); the interpreter path is `Scripts/python.exe` under the
root on Windows and `bin/python` otherwise when it exists on disk, and the
currently executing interpreter otherwise; resolution is total. -/
theorem C4_path_resolution (cfg : Config) (st : St) (name : String) :
    venv_path cfg name = cfg.addonPath ++ "/" ++ name ∧
    venv_path cfg defaultEnvName = cfg.addonPath ++ "/" ++ "Verv_Req_env" ∧
    env_python_for cfg defaultEnvName =
      (if cfg.isWindows then
        cfg.addonPath ++ "/" ++ "Verv_Req_env" ++ "/" ++ "Scripts" ++ "/" ++
          "python.exe"
      else
        cfg.addonPath ++ "/" ++ "Verv_Req_env" ++ "/" ++ "bin" ++ "/" ++
          "python") ∧
    (env_python_for cfg defaultEnvName ∈ st.fs →
      python_exec cfg st = env_python_for cfg defaultEnvName) ∧
    (env_python_for cfg defaultEnvName ∉ st.fs →
      python_exec cfg st = cfg.sysExecutable) :=
  ⟨rfl, rfl, rfl,
   fun h => by simp [python_exec, h],
   fun h => by simp [python_exec, h]⟩

/-- C4 witness: at a provisioned state the resolver returns the
environment interpreter; at a fresh state it falls back to the currently
executing interpreter. -/
theorem C4_witness :
    python_exec cfg0 stProv = env_python_for cfg0 defaultEnvName ∧
    python_exec cfg0 st0 = cfg0.sysExecutable :=
  ⟨(C4_path_resolution cfg0 stProv defaultEnvName).2.2.2.1 (by decide),
   (C4_path_resolution cfg0 st0 defaultEnvName).2.2.2.2 (by decide)⟩

/-- C5: provisioning is idempotent — an existing root makes `create_venv`
a no-op, a second call after a first is a no-op, and two successive calls
perform at most one creation step. -/
theorem C5_provision_idempotent (cfg : Config) (name : String) (st : St) :
    (venv_path cfg name ∈ st.fs → create_venv cfg name st = st) ∧
    create_venv cfg name (create_venv cfg name st) = create_venv cfg name st ∧
    (create_venv cfg name (create_venv cfg name st)).venvCreated.length ≤
      st.venvCreated.length + 1 := by
  refine ⟨fun h => create_venv_of_mem cfg name st h, ?_, ?_⟩
  · exact create_venv_of_mem cfg name _ (root_mem_create_venv_fs cfg name st)
  · rw [create_venv_of_mem cfg name _ (root_mem_create_venv_fs cfg name st)]
    by_cases h : venv_path cfg name ∈ st.fs
    · rw [create_venv_of_mem cfg name st h]
      omega
    · simp [create_venv, ensure_pip_installed, runProc, h]

/-- C5 witness: at a state whose environment root already exists,
`create_venv` returns the state unchanged. -/
theorem C5_witness : create_venv cfg0 defaultEnvName stProv = stProv :=
  (C5_provision_idempotent cfg0 defaultEnvName stProv).1 (by decide)

/-- C6: for every state — in particular regardless of which packages are
already importable — install with `override = true` invokes the
forced-reinstall command (carrying `--force-reinstall`) over the whole
manifest file targeting the environment root, and with `override = false`
it invokes the normal upgrade-if-needed command; no short-circuit exists. -/
theorem C6_override_selects_install_command (cfg : Config) (st : St) :
    (∀ ov, (install_packages cfg ov st).fst.procs =
      (create_venv cfg defaultEnvName st).procs ++
        [[python_exec cfg (create_venv cfg defaultEnvName st), "-m", "ensurepip"],
         [python_exec cfg (create_venv cfg defaultEnvName st), "-m", "pip",
            "install", "--upgrade", "pip"],
         pip_install_cmd (python_exec cfg (create_venv cfg defaultEnvName st)) ov
           (requirements_txt_path cfg) (venv_path cfg defaultEnvName)]) ∧
    pip_install_cmd (python_exec cfg (create_venv cfg defaultEnvName st)) true
        (requirements_txt_path cfg) (venv_path cfg defaultEnvName) =
      [python_exec cfg (create_venv cfg defaultEnvName st), "-m", "pip",
        "install", "--upgrade", "--force-reinstall", "-r",
        requirements_txt_path cfg, "--target", venv_path cfg defaultEnvName] ∧
    pip_install_cmd (python_exec cfg (create_venv cfg defaultEnvName st)) false
        (requirements_txt_path cfg) (venv_path cfg defaultEnvName) =
      [python_exec cfg (create_venv cfg defaultEnvName st), "-m", "pip",
        "install", "--upgrade", "-r", requirements_txt_path cfg, "--target",
        venv_path cfg defaultEnvName] :=
  ⟨fun ov => install_fst_procs cfg ov st, rfl, rfl⟩

/-- C7: uninstall invokes `pip uninstall -y <name>` for every stripped
non-blank manifest entry, in manifest order, and the sequence of
invocations is independent of the exit codes the external processes
produce — a failing entry never suppresses the later ones; `-y` makes each
invocation non-interactive. -/
theorem C7_uninstall_attempts_every_entry (cfg : Config) (o1 o2 : List Int)
    (st : St) (lines : List String) (h : st.manifest = some lines) :
    uninstall_packages { cfg with outcome := o1 } st =
      uninstall_packages { cfg with outcome := o2 } st ∧
    (uninstall_packages cfg st).procs =
      st.procs ++
        ([[python_exec cfg st, "-m", "ensurepip"]] ++
          (processEntries lines).map
            (fun n => [python_exec cfg st, "-m", "pip", "uninstall", "-y", n])) := by
  constructor
  · rfl
  · rw [uninstall_eq cfg st lines h]

/-- C7 witness: on the concrete duplicate-bearing manifest, every entry is
attempted in order under either exit-code assignment. -/
theorem C7_witness :
    uninstall_packages { cfg0 with outcome := [0] } stRT =
      uninstall_packages { cfg0 with outcome := [1] } stRT ∧
    (uninstall_packages cfg0 stRT).procs =
      stRT.procs ++
        ([[python_exec cfg0 stRT, "-m", "ensurepip"]] ++
          (processEntries ["requests", "", "  numpy  ", "requests"]).map
            (fun n => [python_exec cfg0 stRT, "-m", "pip", "uninstall", "-y", n])) :=
  C7_uninstall_attempts_every_entry cfg0 [0] [1] stRT
    ["requests", "", "  numpy  ", "requests"] rfl

/-- C8: verification never mutates the filesystem, the manifest, the
module search path, the process trace, or the created-environment record,
and on a missing manifest file it returns `false` leaving the state
entirely unchanged. -/
theorem C8_verify_is_observational (cfg : Config) (st : St) :
    (check_dependencies_installed cfg st).fst.fs = st.fs ∧
    (check_dependencies_installed cfg st).fst.manifest = st.manifest ∧
    (check_dependencies_installed cfg st).fst.sysPath = st.sysPath ∧
    (check_dependencies_installed cfg st).fst.procs = st.procs ∧
    (check_dependencies_installed cfg st).fst.venvCreated = st.venvCreated ∧
    (st.manifest = none → check_dependencies_installed cfg st = (st, false)) :=
  ⟨check_fst_fs cfg st, check_fst_manifest cfg st, check_fst_sysPath cfg st,
   check_fst_procs cfg st, check_fst_venvCreated cfg st,
   fun h => by simp [check_dependencies_installed, h]⟩

/-- C8 witness: with the manifest file absent, verification returns the
state unchanged together with `false`. -/
theorem C8_witness :
    check_dependencies_installed cfg0 stNone = (stNone, false) :=
  (C8_verify_is_observational cfg0 stNone).2.2.2.2.2 rfl

/-- C9: each install call made while the environment root exists appends
exactly one copy of the root to `sys.path` with no occurrence check, so
two such calls leave two copies; every operation only ever appends to
`sys.path`, never removing or reordering existing entries. -/
theorem C9_syspath_append_only (cfg : Config) (ov : Bool) (name : String)
    (st : St) :
    (venv_path cfg defaultEnvName ∈ st.fs →
      (install_packages cfg ov st).fst.sysPath =
        st.sysPath ++ [venv_path cfg defaultEnvName]) ∧
    (venv_path cfg defaultEnvName ∈ st.fs →
      (install_packages cfg ov (install_packages cfg ov st).fst).fst.sysPath =
        st.sysPath ++ [venv_path cfg defaultEnvName, venv_path cfg defaultEnvName]) ∧
    (∃ t, (install_packages cfg ov st).fst.sysPath = st.sysPath ++ t) ∧
    (uninstall_packages cfg st).sysPath = st.sysPath ∧
    (check_dependencies_installed cfg st).fst.sysPath = st.sysPath ∧
    (create_venv cfg name st).sysPath = st.sysPath := by
  refine ⟨fun _ => ?_, fun _ => ?_, ⟨[venv_path cfg defaultEnvName], ?_⟩,
    uninstall_sysPath cfg st, check_fst_sysPath cfg st,
    create_venv_sysPath cfg name st⟩
  · rw [install_fst_sysPath, create_venv_sysPath]
  · rw [install_fst_sysPath, create_venv_sysPath, install_fst_sysPath,
      create_venv_sysPath]
    simp
  · rw [install_fst_sysPath, create_venv_sysPath]

/-- C9 witness: at a provisioned state, one install appends one copy of
the root and a second install appends a second copy. -/
theorem C9_witness :
    (install_packages cfg0 false stProv).fst.sysPath =
      stProv.sysPath ++ [venv_path cfg0 defaultEnvName] ∧
    (install_packages cfg0 false
        (install_packages cfg0 false stProv).fst).fst.sysPath =
      stProv.sysPath ++
        [venv_path cfg0 defaultEnvName, venv_path cfg0 defaultEnvName] :=
  ⟨(C9_syspath_append_only cfg0 false defaultEnvName stProv).1 (by decide),
   (C9_syspath_append_only cfg0 false defaultEnvName stProv).2.1 (by decide)⟩

/-- C10: when the manifest file does not exist, uninstall returns with the
state completely unchanged — no process invocation (in particular no
`ensurepip` bootstrap), no filesystem write, no search-path change. -/
theorem C10_uninstall_noop_on_missing_manifest (cfg : Config) (st : St)
    (h : st.manifest = none) : uninstall_packages cfg st = st := by
  simp [uninstall_packages, h]

/-- C10 witness: at the concrete manifest-absent state, uninstall is the
identity. -/
theorem C10_witness : uninstall_packages cfg0 stNone = stNone :=
  C10_uninstall_noop_on_missing_manifest cfg0 stNone rfl
